import Mathlib

/-!
Verification development for the SmartAttend `check_users.py` diagnostic
script.  The script is embedded shallowly: Python strings become Lean
`String` (a list of unicode characters, matching Python's character-indexed
slicing), the rows returned by the database become a list of `User`
records, and the sequence of `print` calls becomes a list of `Line`
values, each rendered to its printed text by `renderLine`.  The three
possible fates of the run (connection failure, query failure, successful
fetch) are the three constructors of `DbOutcome`; `run` mirrors the
module-level try/except of the script, tracking whether the connection
was opened and whether `conn.close()` was reached.
-/

/-! ## Configuration loader (check_users.py lines 14-21) -/

/-- A snapshot of the process environment after `load_dotenv()`:
each variable name is either unset (`none`) or set to a string value. -/
def Env : Type := String → Option String

/-- Embedding of `os.getenv(key, default)`: the value of the variable if
it is set (to anything, including the empty string), the default if it is
unset. -/
def getenv (env : Env) (key dflt : String) : String :=
  (env key).getD dflt

/-- The five connection parameters passed to `psycopg2.connect`. -/
structure DbParams where
  host : String
  port : String
  database : String
  user : String
  password : String
deriving DecidableEq, Repr

/-- Embedding of the `psycopg2.connect(...)` argument bundle,
check_users.py lines 15-21. -/
def connectParams (env : Env) : DbParams :=
  { host := getenv env "DB_HOST" "localhost"
    port := getenv env "DB_PORT" "5432"
    database := getenv env "DB_NAME" "smartattend"
    user := getenv env "DB_USER" "smartattend_user"
    password := getenv env "DB_PASSWORD" "smartattend_password" }

/-! ## Data model: one row of the `users` table.

`id` and `created_at` are never displayed (creation time only fixes the
query order, which is already the order of the fetched list), so they are
omitted.  Nullable columns are `Option`; `last_login` carries the `str()`
rendering of the timestamp when present (a present datetime is always
truthy in Python). -/

structure User where
  email : String
  full_name : Option String
  role : Option String
  platform : Option String
  is_active : Bool
  last_login : Option String
deriving DecidableEq, Repr

/-! ## String helpers shared by the renderer -/

/-- Python slice `s[:n]`: the first `n` characters of `s`. -/
def pyTake (s : String) (n : Nat) : String :=
  ⟨s.data.take n⟩

/-- Python truthiness of an optional string: `None` and `""` are falsy,
every other value is truthy. -/
def pyTruthyStr : Option String → Bool
  | none => false
  | some s => s != ""

/-- Python format spec `{x:<w}`: left-align in a field of minimum width
`w`.  A value of `w` or more characters is NOT truncated; a shorter value
is padded on the right with spaces up to width `w`. -/
def leftAlign (s : String) (w : Nat) : String :=
  ⟨s.data ++ List.replicate (w - s.data.length) ' '⟩

/-- Python `str(x)` on an optional string: `str(None)` is `"None"`. -/
def pyStrOpt : Option String → String
  | none => "None"
  | some s => s

/-! ## Flat-table field formatting (check_users.py lines 50-55) -/

/-- Line 51: `(user['full_name'] or 'N/A')[:25]`. -/
def displayName (fn : Option String) : String :=
  pyTake (if pyTruthyStr fn then fn.getD "" else "N/A") 25

/-- Line 53: `user['platform'][:15] if user['platform'] else 'N/A'`. -/
def displayPlatform (p : Option String) : String :=
  if pyTruthyStr p then pyTake (p.getD "") 15 else "N/A"

/-- Line 54: `'✅' if user['is_active'] else '❌'`. -/
def activeGlyph (b : Bool) : String :=
  if b then "✅" else "❌"

/-- Line 55: `str(user['last_login'])[:20] if user['last_login'] else 'Never'`. -/
def displayLastLogin : Option String → String
  | none => "Never"
  | some s => pyTake s 20

/-! ## Output lines

One constructor per kind of `print` call in the script; `renderLine`
gives the exact text passed to `print`. -/

/-- The Python exceptions the renderer itself can raise. -/
inductive PyError where
  | typeErrorNoneSubscript
deriving DecidableEq, Repr

/-- Message text of a renderer exception as interpolated into
`f"❌ Error: {e}"`.  (Python prints the quoted form
`'NoneType' object is not subscriptable`.) -/
def pyErrorMsg : PyError → String
  | PyError.typeErrorNoneSubscript => "NoneType object is not subscriptable"

inductive Line where
  | connected
  | totalCount (n : Nat)
  | sep
  | dashSep
  | headerRow
  | row (email name role platform active lastLogin : String)
  | groupSectionHeader
  | groupHeader (key : String) (count : Nat)
  | member (emailField roleText status : String)
  | noUsers
  | done
  | dbError (msg : String)
  | genError (e : PyError)
deriving DecidableEq, Repr

/-- The 120-character `=` rule (lines 43, 47, 59). -/
def sepText : String := ⟨List.replicate 120 '='⟩

/-- The 120-character `-` rule (line 61). -/
def dashText : String := ⟨List.replicate 120 '-'⟩

/-- The exact text each `print` call emits (trailing newline added by
`print` itself omitted; embedded `\n` characters from the f-strings are
kept). -/
def renderLine : Line → String
  | Line.connected => "✅ Connected to database\n"
  | Line.totalCount n => "📊 Total Users: " ++ toString n ++ "\n"
  | Line.sep => sepText
  | Line.dashSep => dashText
  | Line.headerRow =>
      leftAlign "Email" 40 ++ " " ++ leftAlign "Name" 25 ++ " " ++
      leftAlign "Role" 15 ++ " " ++ leftAlign "Platform" 15 ++ " " ++
      leftAlign "Active" 8 ++ " " ++ leftAlign "Last Login" 20
  | Line.row e n r p a l =>
      leftAlign e 40 ++ " " ++ leftAlign n 25 ++ " " ++
      leftAlign r 15 ++ " " ++ leftAlign p 15 ++ " " ++
      leftAlign a 8 ++ " " ++ leftAlign l 20
  | Line.groupSectionHeader => "\n📋 User Details by Platform:"
  | Line.groupHeader k n => "\n🏢 " ++ k ++ " (" ++ toString n ++ " users)"
  | Line.member e r st => "  - " ++ e ++ " (" ++ r ++ ") - " ++ st
  | Line.noUsers => "❌ No users found in database"
  | Line.done => "\n✅ Done"
  | Line.dbError m => "❌ Database error: " ++ m
  | Line.genError e => "❌ Error: " ++ pyErrorMsg e

/-! ## Flat table rows (check_users.py lines 49-57) -/

/-- The fields of one flat-table row, lines 50-57, assuming `role` is
present (line 52 `user['role'][:15]` would raise on `None`). -/
def rowOf (u : User) : Line :=
  Line.row (pyTake u.email 40) (displayName u.full_name)
    (pyTake (u.role.getD "") 15) (displayPlatform u.platform)
    (activeGlyph u.is_active) (displayLastLogin u.last_login)

/-- Building one row: line 52 subscripts `user['role']`, which raises
`TypeError` when the role column is NULL; every other field access in
lines 50-55 is `None`-safe. -/
def rowLine (u : User) : Option Line :=
  match u.role with
  | none => none
  | some _ => some (rowOf u)

/-- The `for user in users` loop of lines 49-57: rows already printed
stay printed; the first failing row aborts the loop with the exception. -/
def renderTableRows : List User → List Line × Option PyError
  | [] => ([], none)
  | u :: us =>
    match rowLine u with
    | none => ([], some PyError.typeErrorNoneSubscript)
    | some l =>
      let r := renderTableRows us
      (l :: r.1, r.2)

/-! ## Grouping by platform (check_users.py lines 63-74) -/

/-- Line 66: `user['platform'] or 'General'` — `None` and `""` both fall
back to `"General"`. -/
def platformKey (p : Option String) : String :=
  if pyTruthyStr p then p.getD "" else "General"

/-- The keys of the grouping dict, in insertion order. -/
def groupKeys (d : List (String × List User)) : List String :=
  d.map Prod.fst

/-- Lines 67-69: insert `u` under key `k`, appending to the existing
group if the key is present, else adding a new key at the end (Python
dict insertion order). -/
def groupInsert (d : List (String × List User)) (k : String) (u : User) :
    List (String × List User) :=
  if k ∈ groupKeys d then
    d.map (fun g => if g.1 = k then (g.1, g.2 ++ [u]) else g)
  else
    d ++ [(k, [u])]

/-- The `platforms` dict after the loop of lines 65-69. -/
def buildPlatforms (users : List User) : List (String × List User) :=
  users.foldl (fun d u => groupInsert d (platformKey u.platform) u) []

/-- The order `sorted(platforms.items())` uses: tuples compare by first
component first, and the keys are distinct, so it is comparison of the
keys (Python compares strings lexicographically by code point, exactly
the order of the `String` linear order). -/
def groupLE (a b : String × List User) : Prop := a.1 ≤ b.1

instance : DecidableRel groupLE :=
  fun a b => inferInstanceAs (Decidable (a.1 ≤ b.1))

instance : IsTotal (String × List User) groupLE :=
  ⟨fun a b => le_total a.1 b.1⟩

instance : IsTrans (String × List User) groupLE :=
  ⟨fun _ _ _ h1 h2 => le_trans h1 h2⟩

/-- Line 71: `sorted(platforms.items())` — a stable sort of the dict
items in ascending key order. -/
def sortedPlatforms (users : List User) : List (String × List User) :=
  List.insertionSort groupLE (buildPlatforms users)

/-- Line 74: the per-member line of the grouped summary.  The email is
left-aligned in a width-35 field (format spec `:<35`), the role is
interpolated with `str()` (so a NULL role prints `None`, no exception),
and the status word follows the activation flag. -/
def memberLineOf (u : User) : Line :=
  Line.member (leftAlign u.email 35) (pyStrOpt u.role)
    (if u.is_active then "Active" else "Inactive")

/-- The email field of the member line of `u`, as printed. -/
def memberEmailField (u : User) : String :=
  match memberLineOf u with
  | Line.member e _ _ => e
  | _ => ""

/-- Lines 71-74: for each group in sorted order, a header with the
uppercased key and the member count, then one line per member in
original (query) order. -/
def groupLines (gs : List (String × List User)) : List Line :=
  gs.flatMap (fun g => Line.groupHeader g.1.toUpper g.2.length :: g.2.map memberLineOf)

/-! ## The body of the `with` block (check_users.py lines 42-76) -/

/-- Everything printed from line 42 on, given the fetched rows, together
with the exception (if any) that aborted the block.  Lines 42-43 print
the count and a rule unconditionally; an empty fetch takes the `else`
branch of line 75; otherwise the flat table renders (and may raise on a
NULL role), and only if it completes does the grouped summary render. -/
def scriptBody (users : List User) : List Line × Option PyError :=
  if users.isEmpty then
    ([Line.totalCount users.length, Line.sep, Line.noUsers], none)
  else
    match renderTableRows users with
    | (rows, some e) =>
      ([Line.totalCount users.length, Line.sep, Line.headerRow, Line.sep] ++ rows, some e)
    | (rows, none) =>
      ([Line.totalCount users.length, Line.sep, Line.headerRow, Line.sep] ++ rows
        ++ [Line.sep, Line.groupSectionHeader, Line.dashSep]
        ++ groupLines (sortedPlatforms users), none)

/-! ## The module-level try/except (check_users.py lines 14-84) -/

/-- How the interaction with the database goes: the `connect` call raises
`psycopg2.Error`, or the query raises `psycopg2.Error` after the
connection was opened, or the fetch succeeds with a list of rows. -/
inductive DbOutcome where
  | connFail (msg : String)
  | queryFail (msg : String)
  | ok (users : List User)
deriving Repr

/-- Observable result of one run of the script. -/
structure RunResult where
  output : List Line
  connOpened : Bool
  connClosed : Bool
  exitCode : Nat
deriving DecidableEq, Repr

/-- The whole script.  `connect` failure: the `except psycopg2.Error`
handler prints the database-error line (nothing was opened).  Query
failure: the connected banner printed, then the same handler; the
`conn.close()` of line 78 is inside the `try` after the `with` block, so
it is NOT reached.  Successful fetch: the body runs; if it raises (NULL
role), the `except Exception` handler of line 83 prints the generic
error line and `conn.close()` is again skipped; otherwise line 78 closes
the connection and line 79 prints the final banner.  No handler re-raises
and no exit code is ever set, so the process exits 0 in every case. -/
def run (db : DbOutcome) : RunResult :=
  match db with
  | DbOutcome.connFail m =>
    ⟨[Line.dbError m], false, false, 0⟩
  | DbOutcome.queryFail m =>
    ⟨[Line.connected, Line.dbError m], true, false, 0⟩
  | DbOutcome.ok users =>
    match scriptBody users with
    | (lines, some e) =>
      ⟨Line.connected :: (lines ++ [Line.genError e]), true, false, 0⟩
    | (lines, none) =>
      ⟨Line.connected :: (lines ++ [Line.done]), true, true, 0⟩

/-! ## Line classifiers and counters -/

def isRow : Line → Bool
  | Line.row _ _ _ _ _ _ => true
  | _ => false

def isHeaderRow : Line → Bool
  | Line.headerRow => true
  | _ => false

def isGroupHeader : Line → Bool
  | Line.groupHeader _ _ => true
  | _ => false

def isMember : Line → Bool
  | Line.member _ _ _ => true
  | _ => false

/-- Number of flat-table data rows in an output. -/
def countRows (ls : List Line) : Nat := ls.countP isRow

/-- Number of flat-table column-header rows in an output. -/
def countHeaderRows (ls : List Line) : Nat := ls.countP isHeaderRow

/-- Number of group headers in an output. -/
def countGroupHeaders (ls : List Line) : Nat := ls.countP isGroupHeader

/-- Number of grouped member lines in an output. -/
def countMembers (ls : List Line) : Nat := ls.countP isMember

/-- All users appearing in a grouping, groups flattened in order. -/
def flatUsers (d : List (String × List User)) : List User :=
  d.flatMap (fun g => g.2)

/-! ## Sanity checks on small concrete inputs -/

example : getenv (fun _ => none) "DB_HOST" "localhost" = "localhost" := rfl

example : pyTake "hello world" 5 = "hello" := rfl

example : displayPlatform (some "") = "N/A" := by decide

example : platformKey (some "LMS") = "LMS" := by decide

example :
    run (DbOutcome.ok []) =
      ⟨[Line.connected, Line.totalCount 0, Line.sep, Line.noUsers, Line.done],
        true, true, 0⟩ := by
  decide

/-! ## Helper lemmas -/

theorem leftAlign_length (s : String) (w : Nat) :
    (leftAlign s w).length = max w s.length := by
  show (s.data ++ List.replicate (w - s.data.length) ' ').length = max w s.data.length
  simp only [List.length_append, List.length_replicate]
  omega

theorem leftAlign_data_take (s : String) (w : Nat) :
    (leftAlign s w).data.take s.length = s.data := by
  show (s.data ++ List.replicate (w - s.data.length) ' ').take s.data.length = s.data
  exact List.take_left s.data _

/-! ## Claim theorems -/

/-- C1: the claim (from the spec) is that the connection is released on
every exit path after it was opened, in particular when query execution
fails.  The code violates it: on a query failure after a successful
connect, control jumps from inside the `with` block to the
`except psycopg2.Error` handler at line 81, skipping the `conn.close()`
at line 78, so the run ends with the connection opened but never
closed. -/
theorem conn_left_open_on_query_failure (m : String) :
    (run (DbOutcome.queryFail m)).connOpened = true ∧
    (run (DbOutcome.queryFail m)).connClosed = false :=
  ⟨rfl, rfl⟩

/-- C2 counterexample: the claim says a connection parameter environment
variable that is set to the empty string is replaced by its default, but
`os.getenv('DB_HOST', 'localhost')` returns the empty string unchanged
when `DB_HOST` is set to `""`: the default is substituted only when the
variable is unset. -/
def envEmptyHost : Env := fun k => if k = "DB_HOST" then some "" else none

theorem getenv_keeps_empty_value :
    envEmptyHost "DB_HOST" = some "" ∧
    (connectParams envEmptyHost).host = "" ∧
    (connectParams envEmptyHost).host ≠ "localhost" := by
  refine ⟨rfl, rfl, ?_⟩
  decide

/-- C2 (amended): for each of the five connection parameters, the fixed
literal default is substituted exactly when the corresponding environment
variable is unset; any set value — including the empty string — is passed
through uninterpreted. -/
theorem connectParams_defaults (env : Env) :
    (env "DB_HOST" = none → (connectParams env).host = "localhost") ∧
    (∀ v, env "DB_HOST" = some v → (connectParams env).host = v) ∧
    (env "DB_PORT" = none → (connectParams env).port = "5432") ∧
    (∀ v, env "DB_PORT" = some v → (connectParams env).port = v) ∧
    (env "DB_NAME" = none → (connectParams env).database = "smartattend") ∧
    (∀ v, env "DB_NAME" = some v → (connectParams env).database = v) ∧
    (env "DB_USER" = none → (connectParams env).user = "smartattend_user") ∧
    (∀ v, env "DB_USER" = some v → (connectParams env).user = v) ∧
    (env "DB_PASSWORD" = none → (connectParams env).password = "smartattend_password") ∧
    (∀ v, env "DB_PASSWORD" = some v → (connectParams env).password = v) := by
  refine ⟨?_, ?_, ?_, ?_, ?_, ?_, ?_, ?_, ?_, ?_⟩ <;>
    first
      | (intro h; simp [connectParams, getenv, h])
      | (intro v h; simp [connectParams, getenv, h])

/-- C2 witness: a run with every variable unset uses the default host,
and a run with `DB_PORT` set uses the set value. -/
theorem connectParams_defaults_witness :
    (connectParams (fun _ => none)).host = "localhost" ∧
    (connectParams (fun k => if k = "DB_PORT" then some "6000" else none)).port = "6000" :=
  ⟨(connectParams_defaults (fun _ => none)).1 rfl,
   (connectParams_defaults (fun k => if k = "DB_PORT" then some "6000" else none)).2.2.2.1
     "6000" (by decide)⟩

/-- C3 counterexample: the claim says the grouped member line shows the
email truncated to at most 35 characters, but the format spec `:<35` at
line 74 only pads: a 36-character email appears in the member line in
full, 36 characters long, not cut to 35. -/
def uLongEmail : User :=
  { email := ⟨List.replicate 36 'a'⟩, full_name := none, role := some "admin",
    platform := some "LMS", is_active := true, last_login := none }

theorem memberEmail_not_truncated :
    uLongEmail.email.length = 36 ∧
    (memberEmailField uLongEmail).length = 36 ∧
    memberEmailField uLongEmail = uLongEmail.email := by
  refine ⟨rfl, rfl, rfl⟩

/-- C3 (amended): the member line shows the email left-aligned in a
field of minimum width 35: the full email always appears as a prefix of
the field (never truncated), and the field's length is the maximum of 35
and the email's length (shorter emails are padded to exactly 35). -/
theorem memberEmail_left_aligned (u : User) :
    (memberEmailField u).length = max 35 u.email.length ∧
    (memberEmailField u).data.take u.email.length = u.email.data := by
  exact ⟨leftAlign_length u.email 35, leftAlign_data_take u.email 35⟩

/-- C7: on a successful fetch returning zero records, the run prints the
connected banner, the zero count, one rule, the explicit
`❌ No users found in database` notice and the final banner — and no
column header row, no table data row, no group header and no member
line. -/
theorem empty_fetch_prints_notice_only :
    (run (DbOutcome.ok [])).output =
      [Line.connected, Line.totalCount 0, Line.sep, Line.noUsers, Line.done] ∧
    Line.noUsers ∈ (run (DbOutcome.ok [])).output ∧
    renderLine Line.noUsers = "❌ No users found in database" ∧
    countHeaderRows (run (DbOutcome.ok [])).output = 0 ∧
    countRows (run (DbOutcome.ok [])).output = 0 ∧
    countGroupHeaders (run (DbOutcome.ok [])).output = 0 ∧
    countMembers (run (DbOutcome.ok [])).output = 0 := by
  refine ⟨rfl, ?_, rfl, rfl, rfl, rfl, rfl⟩
  decide

/-- C8: a failed connection attempt is caught: the only output is the
database-error line, whose printed text starts with the `❌` glyph, with
no table or grouped output; a failed query likewise yields only the
connected banner and the database-error line; both runs exit 0. -/
theorem db_failures_caught_exit_zero (m : String) :
    (run (DbOutcome.connFail m)).output = [Line.dbError m] ∧
    (run (DbOutcome.connFail m)).exitCode = 0 ∧
    countRows (run (DbOutcome.connFail m)).output = 0 ∧
    countHeaderRows (run (DbOutcome.connFail m)).output = 0 ∧
    countGroupHeaders (run (DbOutcome.connFail m)).output = 0 ∧
    countMembers (run (DbOutcome.connFail m)).output = 0 ∧
    (renderLine (Line.dbError m)).data.head? = some '❌' ∧
    (run (DbOutcome.queryFail m)).output = [Line.connected, Line.dbError m] ∧
    (run (DbOutcome.queryFail m)).exitCode = 0 :=
  ⟨rfl, rfl, rfl, rfl, rfl, rfl, rfl, rfl, rfl⟩

/-- Used by the C9 witness: a user whose platform column holds the empty
string. -/
def uEmptyPlatform : User :=
  { email := "b@x.com", full_name := some "Bob", role := some "staff",
    platform := some "", is_active := false, last_login := none }

/-- C9: a record whose platform is the empty string renders exactly like
the same record with platform absent — the flat-table row is identical
(platform column `N/A`) and its grouping key is `"General"`, the same key
an absent platform gets. -/
theorem empty_platform_like_absent (u : User) (h : u.platform = some "") :
    rowLine u = rowLine { u with platform := none } ∧
    displayPlatform u.platform = "N/A" ∧
    displayPlatform none = "N/A" ∧
    platformKey u.platform = "General" ∧
    platformKey none = "General" := by
  refine ⟨?_, ?_, rfl, ?_, rfl⟩
  · cases hr : u.role <;>
      simp [rowLine, rowOf, h, hr, displayPlatform, pyTruthyStr]
  · rw [h]; rfl
  · rw [h]; rfl

/-- C9 witness: the property at a concrete empty-platform user. -/
theorem empty_platform_like_absent_witness :
    rowLine uEmptyPlatform = rowLine { uEmptyPlatform with platform := none } ∧
    displayPlatform uEmptyPlatform.platform = "N/A" ∧
    displayPlatform none = "N/A" ∧
    platformKey uEmptyPlatform.platform = "General" ∧
    platformKey none = "General" :=
  empty_platform_like_absent uEmptyPlatform rfl

/-! ## Grouping lemmas (for C4, C5) -/

theorem groupKeys_nil : groupKeys [] = [] := rfl

theorem groupKeys_cons (g : String × List User) (d : List (String × List User)) :
    groupKeys (g :: d) = g.1 :: groupKeys d := rfl

theorem groupKeys_append (d e : List (String × List User)) :
    groupKeys (d ++ e) = groupKeys d ++ groupKeys e :=
  List.map_append _ _ _

theorem flatUsers_nil : flatUsers [] = [] := rfl

theorem flatUsers_cons (g : String × List User) (d : List (String × List User)) :
    flatUsers (g :: d) = g.2 ++ flatUsers d := rfl

theorem flatUsers_append (d e : List (String × List User)) :
    flatUsers (d ++ e) = flatUsers d ++ flatUsers e :=
  List.flatMap_append _ _ _

theorem map_bump_id (k : String) (u : User) :
    ∀ d : List (String × List User), k ∉ groupKeys d →
      d.map (fun g => if g.1 = k then (g.1, g.2 ++ [u]) else g) = d := by
  intro d
  induction d with
  | nil => intro _; rfl
  | cons g rest ih =>
    intro hk
    rw [groupKeys_cons] at hk
    simp only [List.mem_cons, not_or] at hk
    have hg : ¬ (g.1 = k) := fun h => hk.1 h.symm
    simp only [List.map_cons, if_neg hg, ih hk.2]

theorem groupKeys_groupInsert (d : List (String × List User)) (k : String) (u : User) :
    groupKeys (groupInsert d k u) =
      if k ∈ groupKeys d then groupKeys d else groupKeys d ++ [k] := by
  unfold groupInsert
  by_cases h : k ∈ groupKeys d
  · rw [if_pos h, if_pos h]
    show (d.map _).map Prod.fst = d.map Prod.fst
    rw [List.map_map]
    apply List.map_congr_left
    intro g _
    by_cases hg : g.1 = k <;> simp [hg]
  · rw [if_neg h, if_neg h, groupKeys_append]
    rfl

theorem nodup_groupKeys_groupInsert (d : List (String × List User)) (k : String)
    (u : User) (hnd : (groupKeys d).Nodup) :
    (groupKeys (groupInsert d k u)).Nodup := by
  rw [groupKeys_groupInsert]
  by_cases h : k ∈ groupKeys d
  · rwa [if_pos h]
  · rw [if_neg h]
    simp [List.nodup_append, hnd, h]

theorem mem_groupKeys_groupInsert (d : List (String × List User)) (k : String)
    (u : User) (x : String) :
    x ∈ groupKeys (groupInsert d k u) ↔ x ∈ groupKeys d ∨ x = k := by
  rw [groupKeys_groupInsert]
  by_cases h : k ∈ groupKeys d
  · rw [if_pos h]
    constructor
    · exact Or.inl
    · rintro (hx | hx)
      · exact hx
      · exact hx ▸ h
  · rw [if_neg h]
    simp

theorem flatUsers_bump (k : String) (u : User) :
    ∀ d : List (String × List User), (groupKeys d).Nodup → k ∈ groupKeys d →
      (flatUsers (d.map (fun g => if g.1 = k then (g.1, g.2 ++ [u]) else g))).Perm
        (flatUsers d ++ [u]) := by
  intro d
  induction d with
  | nil => intro _ hk; simp [groupKeys_nil] at hk
  | cons g rest ih =>
    intro hnd hk
    rw [groupKeys_cons] at hk
    rw [groupKeys_cons, List.nodup_cons] at hnd
    by_cases hg : g.1 = k
    · have hkr : k ∉ groupKeys rest := hg ▸ hnd.1
      rw [List.map_cons, if_pos hg, map_bump_id k u rest hkr, flatUsers_cons,
        flatUsers_cons, List.append_assoc, List.append_assoc]
      exact List.Perm.append_left g.2 List.perm_append_comm
    · have hkr : k ∈ groupKeys rest := by
        rcases List.mem_cons.mp hk with h | h
        · exact absurd h.symm hg
        · exact h
      rw [List.map_cons, if_neg hg, flatUsers_cons, flatUsers_cons, List.append_assoc]
      exact List.Perm.append_left g.2 (ih hnd.2 hkr)

theorem flatUsers_groupInsert (d : List (String × List User)) (k : String) (u : User)
    (hnd : (groupKeys d).Nodup) :
    (flatUsers (groupInsert d k u)).Perm (flatUsers d ++ [u]) := by
  unfold groupInsert
  by_cases hk : k ∈ groupKeys d
  · rw [if_pos hk]
    exact flatUsers_bump k u d hnd hk
  · rw [if_neg hk, flatUsers_append]
    exact List.Perm.refl _

theorem buildAux_spec (users : List User) :
    ∀ d : List (String × List User), (groupKeys d).Nodup →
    (groupKeys (users.foldl (fun d u => groupInsert d (platformKey u.platform) u) d)).Nodup ∧
    (∀ x, x ∈ groupKeys (users.foldl (fun d u => groupInsert d (platformKey u.platform) u) d) ↔
       x ∈ groupKeys d ∨ x ∈ users.map (fun u => platformKey u.platform)) ∧
    (flatUsers (users.foldl (fun d u => groupInsert d (platformKey u.platform) u) d)).Perm
      (flatUsers d ++ users) := by
  induction users with
  | nil =>
    intro d hnd
    refine ⟨hnd, fun x => by simp, by simp⟩
  | cons u us ih =>
    intro d hnd
    rw [List.foldl_cons]
    have hnd2 := nodup_groupKeys_groupInsert d (platformKey u.platform) u hnd
    obtain ⟨h1, h2, h3⟩ := ih (groupInsert d (platformKey u.platform) u) hnd2
    refine ⟨h1, ?_, ?_⟩
    · intro x
      rw [h2 x, mem_groupKeys_groupInsert]
      simp only [List.map_cons, List.mem_cons]
      tauto
    · refine h3.trans ?_
      refine ((flatUsers_groupInsert d (platformKey u.platform) u hnd).append_right us).trans ?_
      rw [List.append_assoc]
      exact List.Perm.refl _

/-- Key function following the words of claim C4: an absent platform
maps to the group key `"General"`, a present platform value is kept as
the group key unchanged. -/
def claimPlatformKey (p : Option String) : String :=
  p.getD "General"

/-- C4 counterexample: per the claim, a record whose platform is
present-but-empty should form a group keyed by its literal platform
value `""`, but the code (line 66, `user['platform'] or 'General'`)
files it under `"General"`: the produced key set differs from the
claimed one. -/
theorem grouping_key_differs_from_claim :
    claimPlatformKey uEmptyPlatform.platform = "" ∧
    groupKeys (buildPlatforms [uEmptyPlatform]) = ["General"] ∧
    "" ∉ groupKeys (buildPlatforms [uEmptyPlatform]) := by
  refine ⟨rfl, rfl, ?_⟩
  decide

/-- C4 (amended): grouping produces group keys exactly equal to the set
of distinct platform values of the input with an absent OR empty
platform treated as `"General"` (the keys are distinct), and flattening
the groups loses and duplicates nothing: the multiset of the groups'
members' emails equals the multiset of input emails. -/
theorem grouping_partitions_users (users : List User) :
    (∀ x, x ∈ groupKeys (buildPlatforms users) ↔
        x ∈ users.map (fun u => platformKey u.platform)) ∧
    (groupKeys (buildPlatforms users)).Nodup ∧
    ((flatUsers (buildPlatforms users)).map User.email).Perm (users.map User.email) := by
  obtain ⟨h1, h2, h3⟩ := buildAux_spec users [] (by simp [groupKeys_nil])
  refine ⟨?_, h1, ?_⟩
  · intro x
    have := h2 x
    simpa [groupKeys_nil] using this
  · have h4 : (flatUsers (buildPlatforms users)).Perm users := by
      simpa [flatUsers_nil] using h3
    exact h4.map User.email

/-- C5: the grouped summary visits groups in ascending lexical
(case-sensitive, code-point) order of the group key: the key sequence of
`sorted(platforms.items())` is strictly increasing, and it is a
permutation of the grouping's key set — and, being a pure function of
the input, the order is the same on every run over the same input. -/
theorem groups_sorted_ascending (users : List User) :
    (groupKeys (sortedPlatforms users)).Sorted (· < ·) ∧
    (groupKeys (sortedPlatforms users)).Perm (groupKeys (buildPlatforms users)) := by
  have hperm : (sortedPlatforms users).Perm (buildPlatforms users) :=
    List.perm_insertionSort groupLE (buildPlatforms users)
  have hkperm : (groupKeys (sortedPlatforms users)).Perm (groupKeys (buildPlatforms users)) :=
    hperm.map Prod.fst
  refine ⟨?_, hkperm⟩
  have hs : (sortedPlatforms users).Sorted groupLE :=
    List.sorted_insertionSort groupLE (buildPlatforms users)
  have hle : (groupKeys (sortedPlatforms users)).Pairwise (· ≤ ·) := by
    rw [groupKeys, List.pairwise_map]
    exact hs
  have hndb : (groupKeys (buildPlatforms users)).Nodup :=
    (buildAux_spec users [] (by simp [groupKeys_nil])).1
  have hnd : (groupKeys (sortedPlatforms users)).Nodup := hkperm.symm.nodup hndb
  exact (hle.and hnd).imp (fun h => lt_of_le_of_ne h.1 h.2)

/-! ## Row-count lemmas (for C6, C10) -/

theorem countRows_nil : countRows [] = 0 := rfl

theorem countRows_cons (l : Line) (ls : List Line) :
    countRows (l :: ls) = (if isRow l then 1 else 0) + countRows ls := by
  rw [countRows, countRows, List.countP_cons]
  omega

theorem countRows_append (a b : List Line) :
    countRows (a ++ b) = countRows a + countRows b :=
  List.countP_append _ _ _

theorem countRows_map_rowOf (users : List User) :
    countRows (users.map rowOf) = users.length := by
  rw [countRows, List.countP_map]
  apply List.countP_eq_length.mpr
  intro a _
  rfl

theorem countRows_members (l : List User) : countRows (l.map memberLineOf) = 0 := by
  rw [countRows, List.countP_map]
  apply List.countP_eq_zero.mpr
  intro a _
  simp [Function.comp, memberLineOf, isRow]

theorem countRows_groupLines (gs : List (String × List User)) :
    countRows (groupLines gs) = 0 := by
  induction gs with
  | nil => rfl
  | cons g rest ih =>
    have hg : groupLines (g :: rest) =
        Line.groupHeader g.1.toUpper g.2.length :: (g.2.map memberLineOf ++ groupLines rest) := rfl
    rw [hg, countRows_cons, countRows_append, countRows_members, ih]
    rfl

/-! ## C6 and C10 -/

theorem renderTableRows_all_ok (users : List User) (h : ∀ u ∈ users, u.role ≠ none) :
    renderTableRows users = (users.map rowOf, none) := by
  induction users with
  | nil => rfl
  | cons u us ih =>
    have hu : u.role ≠ none := h u (by simp)
    have hl : rowLine u = some (rowOf u) := by
      cases hr : u.role
      · exact absurd hr hu
      · simp [rowLine, hr]
    simp [renderTableRows, hl, ih (fun v hv => h v (by simp [hv]))]

/-- C6: on a successful fetch of a non-empty record sequence (every
record carrying its role, as the data model prescribes), the flat table
prints exactly one data row per input record, and the total-count line
is printed before any data row. -/
theorem flat_table_one_row_per_record (users : List User) (hne : users ≠ [])
    (hroles : ∀ u ∈ users, u.role ≠ none) :
    countRows (run (DbOutcome.ok users)).output = users.length ∧
    ∃ pre post,
      (run (DbOutcome.ok users)).output = pre ++ Line.totalCount users.length :: post ∧
      countRows pre = 0 := by
  have hie : users.isEmpty = false := by
    cases users with
    | nil => exact absurd rfl hne
    | cons a l => rfl
  have htr := renderTableRows_all_ok users hroles
  have hout : (run (DbOutcome.ok users)).output =
      Line.connected :: Line.totalCount users.length :: Line.sep :: Line.headerRow ::
        Line.sep :: (users.map rowOf ++ (Line.sep :: Line.groupSectionHeader ::
          Line.dashSep :: (groupLines (sortedPlatforms users) ++ [Line.done]))) := by
    simp [run, scriptBody, hie, htr]
  constructor
  · rw [hout]
    simp [countRows_cons, countRows_append, countRows_map_rowOf,
      countRows_groupLines, isRow, countRows_nil]
  · exact ⟨[Line.connected], _, by rw [hout]; rfl, rfl⟩

/-- Concrete single-record input used by the C6 witness. -/
def uBasic : User :=
  { email := "a@x.com", full_name := none, role := some "admin",
    platform := none, is_active := true, last_login := none }

/-- C6 witness: the one-record run prints exactly one data row, with the
count line before it. -/
theorem flat_table_one_row_per_record_witness :
    countRows (run (DbOutcome.ok [uBasic])).output = 1 ∧
    ∃ pre post,
      (run (DbOutcome.ok [uBasic])).output = pre ++ Line.totalCount 1 :: post ∧
      countRows pre = 0 := by
  have h := flat_table_one_row_per_record [uBasic] (by decide) (by decide)
  simpa using h

theorem renderTableRows_stops_at_none (pre post : List User) (u : User)
    (hpre : ∀ v ∈ pre, v.role ≠ none) (hu : u.role = none) :
    renderTableRows (pre ++ u :: post) =
      (pre.map rowOf, some PyError.typeErrorNoneSubscript) := by
  induction pre with
  | nil => simp [renderTableRows, rowLine, hu]
  | cons v vs ih =>
    have hv : rowLine v = some (rowOf v) := by
      cases hr : v.role
      · exact absurd hr (hpre v (by simp))
      · simp [rowLine, hr]
    simp [renderTableRows, hv, ih (fun w hw => hpre w (by simp [hw]))]

/-- C10: when the fetched sequence contains a record with a NULL role
(every record before it having a role), rendering that record's
flat-table row raises, the rows of all preceding records having already
been printed; the exception is caught by the generic `except Exception`
handler (not the `psycopg2.Error` one), so the run ends with the generic
error line, partial table output, and the connection left unclosed. -/
theorem null_role_partial_table_generic_error (pre post : List User) (u : User)
    (hpre : ∀ v ∈ pre, v.role ≠ none) (hu : u.role = none) :
    (run (DbOutcome.ok (pre ++ u :: post))).output =
      Line.connected :: Line.totalCount (pre ++ u :: post).length :: Line.sep ::
        Line.headerRow :: Line.sep ::
        (pre.map rowOf ++ [Line.genError PyError.typeErrorNoneSubscript]) ∧
    (run (DbOutcome.ok (pre ++ u :: post))).connClosed = false ∧
    countRows (run (DbOutcome.ok (pre ++ u :: post))).output = pre.length := by
  have hie : (pre ++ u :: post).isEmpty = false := by
    cases pre with
    | nil => rfl
    | cons a l => rfl
  have htr := renderTableRows_stops_at_none pre post u hpre hu
  have hout : (run (DbOutcome.ok (pre ++ u :: post))).output =
      Line.connected :: Line.totalCount (pre ++ u :: post).length :: Line.sep ::
        Line.headerRow :: Line.sep ::
        (pre.map rowOf ++ [Line.genError PyError.typeErrorNoneSubscript]) := by
    simp [run, scriptBody, hie, htr]
  refine ⟨hout, ?_, ?_⟩
  · simp [run, scriptBody, hie, htr]
  · rw [hout]
    simp [countRows_cons, countRows_append, countRows_map_rowOf,
      isRow, countRows_nil]

/-- Concrete NULL-role record used by the C10 witness. -/
def uNoRole : User :=
  { email := "c@x.com", full_name := some "Carol", role := none,
    platform := some "LMS", is_active := true, last_login := some "2024-01-01 10:00:00" }

/-- C10 witness: a two-record input whose second record has a NULL role
yields the connected banner, the count, the header, the first record's
row, then the generic error line — one data row printed, connection not
closed. -/
theorem null_role_partial_table_witness :
    (run (DbOutcome.ok [uBasic, uNoRole])).output =
      Line.connected :: Line.totalCount 2 :: Line.sep :: Line.headerRow :: Line.sep ::
        ([uBasic].map rowOf ++ [Line.genError PyError.typeErrorNoneSubscript]) ∧
    (run (DbOutcome.ok [uBasic, uNoRole])).connClosed = false ∧
    countRows (run (DbOutcome.ok [uBasic, uNoRole])).output = 1 := by
  have h := null_role_partial_table_generic_error [uBasic] [] uNoRole (by decide) rfl
  simpa using h
